import Mathlib

/-
Shallow embedding of `src/app.py`, a minimal Flask web server with three
static routes.

Modelling choices, each traced to the source:
* `app.logger.info` / `app.logger.error` append a record to an append-only
  log; a handler invocation is modelled as returning, alongside its HTTP
  response, the list of log records it emits (the records appended to the
  global log by that invocation).
* The module imports `random` but no handler ever calls it.  The state of
  the `random` module is threaded through every handler as a `Nat` seed, so
  that non-use of randomness is a provable fact: every handler returns the
  seed unchanged and its output does not depend on it.
* Python handlers may in principle raise; each embedded handler therefore
  returns `Except String _`.  The bodies are straight-line code (a log call
  and a `return` of literals), so every path is `Except.ok`.
* `@app.route(p)` registers the handler for method GET at path `p`
  (Flask's default); dispatch reads only the request's method and path.
* Flask serialises a returned dict as a JSON object; a response body is
  either plain text or a JSON object given as a field list.
* `app.run(host='0.0.0.0', port=5000)` is modelled as a constant server
  configuration.
-/

namespace App

/-- Severity of a log record, per `logging`: `info` or `error`. -/
inductive LogLevel
  | info
  | error
deriving DecidableEq, Repr

/-- One record written to the application log: a level and a message. -/
structure LogRecord where
  level : LogLevel
  message : String
deriving DecidableEq, Repr

/-- A response body: a plain string, or a JSON object (Flask serialises a
returned dict) given as an association list of string fields. -/
inductive Body
  | text (s : String)
  | json (fields : List (String × String))
deriving DecidableEq, Repr

/-- An HTTP response: body and status code, as in the tuples the handlers
return. -/
structure Response where
  body : Body
  status : Nat
deriving DecidableEq, Repr

/-- The observable outcome of one handler invocation: the response returned
and the log records the invocation appended to the application log. -/
structure HandlerResult where
  response : Response
  emitted : List LogRecord
deriving DecidableEq, Repr

/-- An incoming HTTP request.  The handlers in `app.py` take no parameters
and never read the request object, so only `method` and `path` are consulted
by dispatch; `query`, `headers` and `reqBody` exist to state that handler
output is independent of them. -/
structure Request where
  method : String
  path : String
  query : String
  headers : List (String × String)
  reqBody : String
deriving DecidableEq, Repr

/-- Handler for `GET /` (`def home()` in `app.py`): logs
"Homepage visited" at level info and returns the greeting with status 200.
The `random`-module seed `rng` is threaded through untouched. -/
def home (rng : Nat) : Except String (HandlerResult × Nat) :=
  .ok (⟨⟨.text "Welcome to Cool Tech Store!", 200⟩,
        [⟨.info, "Homepage visited"⟩]⟩, rng)

/-- Handler for `GET /error` (`def error()` in `app.py`): logs
"An error occurred!" at level error and returns the fixed message with
status 500. -/
def error (rng : Nat) : Except String (HandlerResult × Nat) :=
  .ok (⟨⟨.text "Something went wrong!", 500⟩,
        [⟨.error, "An error occurred!"⟩]⟩, rng)

/-- Handler for `GET /health` (`def health()` in `app.py`): returns the
JSON object with field "status" set to "healthy" and status 200, emitting
no log record. -/
def health (rng : Nat) : Except String (HandlerResult × Nat) :=
  .ok (⟨⟨.json [("status", "healthy")], 200⟩, []⟩, rng)

/-- Route table built by the three `@app.route` decorators: each path is
registered for method GET (Flask's default).  Unmatched (method, path)
pairs fall through to the framework (`none`). -/
def route (method path : String) :
    Option (Nat → Except String (HandlerResult × Nat)) :=
  if method = "GET" then
    if path = "/" then some home
    else if path = "/error" then some error
    else if path = "/health" then some health
    else none
  else none

/-- Dispatch one request: look up the handler for the request's method and
path and run it on the current `random`-module seed. -/
def handleRequest (req : Request) (rng : Nat) :
    Option (Except String (HandlerResult × Nat)) :=
  (route req.method req.path).map (fun h => h rng)

/-- The log records emitted by a handler outcome (none if the handler
raised). -/
def emittedOf (r : Except String (HandlerResult × Nat)) : List LogRecord :=
  match r with
  | .ok (res, _) => res.emitted
  | .error _ => []

/-- The response of a handler outcome, if the handler returned normally. -/
def responseOf (r : Except String (HandlerResult × Nat)) : Option Response :=
  match r with
  | .ok (res, _) => some res.response
  | .error _ => none

/-- Appending an invocation's emitted records to the global application
log, as `app.logger` does. -/
def appendLog (log : List LogRecord) (r : Except String (HandlerResult × Nat)) :
    List LogRecord :=
  log ++ emittedOf r

/-- Server configuration: bind host and port. -/
structure ServerConfig where
  host : String
  port : Nat
deriving DecidableEq, Repr

/-- The configuration passed by the entry point,
`app.run(host='0.0.0.0', port=5000)`: a hardcoded constant, read from no
flag or environment variable. -/
def mainConfig : ServerConfig := ⟨"0.0.0.0", 5000⟩

/-- Claim C1: for every request, invoking the handler for `GET /` returns
status code 200 and the body exactly "Welcome to Cool Tech Store!". -/
theorem home_returns_200_welcome (req : Request) (rng : Nat)
    (hm : req.method = "GET") (hp : req.path = "/") :
    ∃ out, handleRequest req rng = some out ∧
      responseOf out = some ⟨.text "Welcome to Cool Tech Store!", 200⟩ := by
  refine ⟨home rng, ?_, rfl⟩
  simp [handleRequest, route, hm, hp]

/-- Witness for C1 at a concrete request. -/
theorem home_returns_200_welcome_witness :
    ∃ out, handleRequest ⟨"GET", "/", "", [], ""⟩ 0 = some out ∧
      responseOf out = some ⟨.text "Welcome to Cool Tech Store!", 200⟩ :=
  home_returns_200_welcome ⟨"GET", "/", "", [], ""⟩ 0 rfl rfl

/-- Claim C2: for every request, invoking the handler for `GET /error`
returns status code 500 and the body exactly "Something went wrong!". -/
theorem error_returns_500_message (req : Request) (rng : Nat)
    (hm : req.method = "GET") (hp : req.path = "/error") :
    ∃ out, handleRequest req rng = some out ∧
      responseOf out = some ⟨.text "Something went wrong!", 500⟩ := by
  refine ⟨error rng, ?_, rfl⟩
  simp [handleRequest, route, hm, hp]

/-- Witness for C2 at a concrete request. -/
theorem error_returns_500_message_witness :
    ∃ out, handleRequest ⟨"GET", "/error", "", [], ""⟩ 0 = some out ∧
      responseOf out = some ⟨.text "Something went wrong!", 500⟩ :=
  error_returns_500_message ⟨"GET", "/error", "", [], ""⟩ 0 rfl rfl

/-- Claim C3: for every request, invoking the handler for `GET /health`
returns status code 200 and a body equal to the JSON object with field
"status" set to "healthy". -/
theorem health_returns_200_healthy (req : Request) (rng : Nat)
    (hm : req.method = "GET") (hp : req.path = "/health") :
    ∃ out, handleRequest req rng = some out ∧
      responseOf out = some ⟨.json [("status", "healthy")], 200⟩ := by
  refine ⟨health rng, ?_, rfl⟩
  simp [handleRequest, route, hm, hp]

/-- Witness for C3 at a concrete request. -/
theorem health_returns_200_healthy_witness :
    ∃ out, handleRequest ⟨"GET", "/health", "", [], ""⟩ 0 = some out ∧
      responseOf out = some ⟨.json [("status", "healthy")], 200⟩ :=
  health_returns_200_healthy ⟨"GET", "/health", "", [], ""⟩ 0 rfl rfl

/-- Claim C4: handling `GET /` appends exactly one info-level log record
whose message is "Homepage visited" (hence contains it); handling
`GET /error` appends exactly one error-level record whose message is
"An error occurred!"; handling `GET /health` appends no log record. -/
theorem per_route_log_records (rng : Nat) :
    emittedOf (home rng) = [⟨.info, "Homepage visited"⟩] ∧
    emittedOf (error rng) = [⟨.error, "An error occurred!"⟩] ∧
    emittedOf (health rng) = [] :=
  ⟨rfl, rfl, rfl⟩

/-- Claim C5: every handler is deterministic and idempotent: any two
invocations of the same handler, at any two states of the `random` module,
return the same response and emit the same records, and each invocation
leaves the `random`-module state (the only state besides the append-only
log) unchanged, so no randomness is exercised. -/
theorem handlers_deterministic_idempotent (rng₁ rng₂ : Nat) :
    responseOf (home rng₁) = responseOf (home rng₂) ∧
    responseOf (error rng₁) = responseOf (error rng₂) ∧
    responseOf (health rng₁) = responseOf (health rng₂) ∧
    emittedOf (home rng₁) = emittedOf (home rng₂) ∧
    emittedOf (error rng₁) = emittedOf (error rng₂) ∧
    emittedOf (health rng₁) = emittedOf (health rng₂) ∧
    (home rng₁).map Prod.snd = .ok rng₁ ∧
    (error rng₁).map Prod.snd = .ok rng₁ ∧
    (health rng₁).map Prod.snd = .ok rng₁ :=
  ⟨rfl, rfl, rfl, rfl, rfl, rfl, rfl, rfl, rfl⟩

/-- Claim C6: the `/error` handler is not a failure path: on every
invocation it returns normally (an `Except.ok` outcome, never an
exception), with the fixed 500 status, static body and static error-level
log line, independent of the `random`-module state. -/
theorem error_route_returns_normally (rng : Nat) :
    error rng = .ok (⟨⟨.text "Something went wrong!", 500⟩,
      [⟨.error, "An error occurred!"⟩]⟩, rng) :=
  rfl

/-- Counterexample to claim C7 as stated: the `/health` handler, at the
concrete seed 0, emits zero log records, not exactly one. -/
theorem health_request_not_one_log_record :
    ¬ (emittedOf (health 0)).length = 1 := by
  decide

/-- Claim C7 (amended): handling `GET /` or `GET /error` emits exactly one
log record, while handling `GET /health` emits none. -/
theorem log_record_count_per_route (rng : Nat) :
    (emittedOf (home rng)).length = 1 ∧
    (emittedOf (error rng)).length = 1 ∧
    (emittedOf (health rng)).length = 0 :=
  ⟨rfl, rfl, rfl⟩

/-- Claim C8: the entry point starts the listener bound to all interfaces
(host "0.0.0.0") on fixed port 5000; `mainConfig` is a hardcoded constant
of the source, read from no flag or environment variable. -/
theorem main_binds_all_interfaces_port_5000 :
    mainConfig.host = "0.0.0.0" ∧ mainConfig.port = 5000 :=
  ⟨rfl, rfl⟩

/-- Claim C9: every one of the three handlers is total: at any
`random`-module state it terminates with an `Except.ok` outcome carrying
its fixed (body, status) pair, never an exception. -/
theorem handlers_total (rng : Nat) :
    home rng = .ok (⟨⟨.text "Welcome to Cool Tech Store!", 200⟩,
      [⟨.info, "Homepage visited"⟩]⟩, rng) ∧
    error rng = .ok (⟨⟨.text "Something went wrong!", 500⟩,
      [⟨.error, "An error occurred!"⟩]⟩, rng) ∧
    health rng = .ok (⟨⟨.json [("status", "healthy")], 200⟩, []⟩, rng) :=
  ⟨rfl, rfl, rfl⟩

/-- Claim C10: each handler's outcome is independent of the content of the
request: dispatch reads only the method and the path, so two requests
agreeing on those but differing in query string, headers or body produce
identical outcomes. -/
theorem response_independent_of_request_content
    (req₁ req₂ : Request) (rng : Nat)
    (hm : req₁.method = req₂.method) (hp : req₁.path = req₂.path) :
    handleRequest req₁ rng = handleRequest req₂ rng := by
  simp [handleRequest, route, hm, hp]

/-- Witness for C10: two concrete requests to `/` differing in query
string, headers and body get the same outcome. -/
theorem response_independent_of_request_content_witness :
    handleRequest ⟨"GET", "/", "a=1", [("X-Trace", "y")], "payload"⟩ 0 =
    handleRequest ⟨"GET", "/", "", [], ""⟩ 0 :=
  response_independent_of_request_content
    ⟨"GET", "/", "a=1", [("X-Trace", "y")], "payload"⟩
    ⟨"GET", "/", "", [], ""⟩ 0 rfl rfl

end App
